import Mathlib

/-!
Shallow embedding of the flickpick client, covering the Session Store
(AuthContext.tsx), the Content Detail View (DetailPage.tsx) and the
signup form (SignupForm). Remote calls are modelled as oracle
parameters: each operation takes the outcome the external backend
would deliver and returns the new local state together with the list
of side effects it issued (remote writes, navigations, sign-out calls)
and the error it re-throws, if any.
-/

namespace Flickpick

/-- Mirror of the UserProfile interface in AuthContext.tsx: the local
Identity held while a session is active. -/
structure UserProfile where
  id : String
  username : String
  email : String
  avatar : String
  genre_preferences : List Nat
  onboarding_completed : Bool
  watchlist : List Nat
deriving Repr, DecidableEq

/-- The user principal carried by the auth provider (supabase User):
only the fields this client consumes. -/
structure AuthUser where
  id : String
  email : Option String
deriving Repr, DecidableEq

/-- Opaque provider session; the client only ever reads its user
principal, so the token fields are not modelled. -/
structure Session where
  user : AuthUser
deriving Repr, DecidableEq

/-- The Session Store state: the three useState cells of AuthProvider. -/
structure AuthState where
  user : Option UserProfile
  session : Option Session
  loading : Bool
deriving Repr, DecidableEq

/-- Initial state of AuthProvider: no user, no session, loading true. -/
def initialAuthState : AuthState := ⟨none, none, true⟩

/-- A row of the remote profiles table, as read by loadUserProfile.
Nullable columns are Options. -/
structure ProfileRow where
  id : String
  username : String
  avatar : Option String
  genre_preferences : Option (List Nat)
  onboarding_completed : Option Bool
  watchlist : Option (List Nat)
deriving Repr, DecidableEq

/-- A Partial UserProfile as passed to updateProfile and sent as the
payload of a remote profiles-table update: present fields override. -/
structure ProfileUpdates where
  id : Option String
  username : Option String
  email : Option String
  avatar : Option String
  genre_preferences : Option (List Nat)
  onboarding_completed : Option Bool
  watchlist : Option (List Nat)
deriving Repr, DecidableEq

/-- The payload written by addToWatchlist and removeFromWatchlist:
only the watchlist column. -/
def watchlistUpdate (wl : List Nat) : ProfileUpdates :=
  ⟨none, none, none, none, none, none, some wl⟩

/-- The payload written by completeOnboarding. -/
def onboardingUpdate (avatar : String) (genres : List Nat) : ProfileUpdates :=
  ⟨none, none, none, some avatar, some genres, some true, none⟩

/-- Side effects an operation issues against the outside world. -/
inductive Effect where
  | profileUpdate (userId : String) (payload : ProfileUpdates)
  | authSignOutGlobal
  | navigate (url : String)
deriving Repr, DecidableEq

/-- Outcome of a remote profiles-table write. The response body is
carried so that theorems can show the client never reads it. -/
inductive WriteOutcome where
  | ok (responseBody : Option ProfileRow)
  | err (msg : String)
deriving Repr, DecidableEq

/-- Result of one Session Store operation: the new local state, the
effects issued, and the error re-thrown to the caller, if any. -/
structure OpResult where
  state : AuthState
  effects : List Effect
  thrown : Option String
deriving Repr, DecidableEq

/-- JS truthiness for an optional string: null/undefined and the empty
string both fall through to the default of the || chain. -/
def jsOrStr (v : Option String) (d : String) : String :=
  match v with
  | none => d
  | some s => if s = "" then d else s

/-- Embedding of loadUserProfile: fetch the profile row for authUser;
on error return with the state unchanged, otherwise populate the
Identity field by field as the source does. -/
def loadUserProfile (s : AuthState) (authUser : AuthUser)
    (fetch : Except String ProfileRow) : AuthState :=
  match fetch with
  | .error _ => s
  | .ok profile =>
      { s with user := some {
          id := profile.id,
          username := profile.username,
          email := authUser.email.getD "",
          avatar := jsOrStr profile.avatar "👤",
          genre_preferences := profile.genre_preferences.getD [],
          onboarding_completed := profile.onboarding_completed.getD false,
          watchlist := profile.watchlist.getD [] } }

/-- Work the auth-state-change handler schedules instead of running
inline: the setTimeout(0) callback loads the profile and then clears
the loading flag. -/
inductive AuthTask where
  | loadProfile (authUser : AuthUser)
deriving Repr, DecidableEq

/-- Result of the auth-state-change handler: the state it set
synchronously, and the tasks it deferred to the next tick. -/
structure HandlerResult where
  state : AuthState
  deferred : List AuthTask
deriving Repr, DecidableEq

/-- Embedding of the onAuthStateChange callback: it always adopts the
delivered session; on SIGNED_IN with a session it only schedules the
profile load via setTimeout(0); on SIGNED_OUT it clears the user. -/
def onAuthStateChange (s : AuthState) (event : String)
    (session : Option Session) : HandlerResult :=
  let s1 : AuthState := { s with session := session }
  if event = "SIGNED_IN" then
    match session with
    | some sess => ⟨s1, [AuthTask.loadProfile sess.user]⟩
    | none => ⟨s1, []⟩
  else if event = "SIGNED_OUT" then
    ⟨{ s1 with user := none, loading := false }, []⟩
  else
    ⟨s1, []⟩

/-- Running a deferred task: the setTimeout callback awaits
loadUserProfile and then sets loading to false. -/
def runAuthTask (s : AuthState) (t : AuthTask)
    (fetch : Except String ProfileRow) : AuthState :=
  match t with
  | .loadProfile u => { loadUserProfile s u fetch with loading := false }

/-- Embedding of logout: issue the global provider sign-out; on
success clear user and session and navigate to the auth route; on
failure re-throw and leave the local state untouched. -/
def logout (s : AuthState) (signOut : Except String Unit) : OpResult :=
  match signOut with
  | .ok _ =>
      ⟨{ s with user := none, session := none },
       [Effect.authSignOutGlobal, Effect.navigate "/auth"], none⟩
  | .error m => ⟨s, [Effect.authSignOutGlobal], some m⟩

/-- Merge of a Partial UserProfile over the current Identity, as the
object spread in updateProfile does. -/
def mergeProfile (u : UserProfile) (upd : ProfileUpdates) : UserProfile :=
  { id := upd.id.getD u.id
    username := upd.username.getD u.username
    email := upd.email.getD u.email
    avatar := upd.avatar.getD u.avatar
    genre_preferences := upd.genre_preferences.getD u.genre_preferences
    onboarding_completed := upd.onboarding_completed.getD u.onboarding_completed
    watchlist := upd.watchlist.getD u.watchlist }

/-- Embedding of updateProfile: no-op when user is null; otherwise
write the partial update remotely and merge it locally only after the
write succeeds. -/
def updateProfile (s : AuthState) (updates : ProfileUpdates)
    (remote : WriteOutcome) : OpResult :=
  match s.user with
  | none => ⟨s, [], none⟩
  | some u =>
      match remote with
      | .err m => ⟨s, [Effect.profileUpdate u.id updates], some m⟩
      | .ok _ =>
          ⟨{ s with user := some (mergeProfile u updates) },
           [Effect.profileUpdate u.id updates], none⟩

/-- Embedding of completeOnboarding: no-op when user is null;
otherwise persist avatar, genre preferences and the completed flag,
then merge locally after success. -/
def completeOnboarding (s : AuthState) (avatar : String)
    (genres : List Nat) (remote : WriteOutcome) : OpResult :=
  match s.user with
  | none => ⟨s, [], none⟩
  | some u =>
      match remote with
      | .err m => ⟨s, [Effect.profileUpdate u.id (onboardingUpdate avatar genres)], some m⟩
      | .ok _ =>
          ⟨{ s with user := some {
               u with avatar := avatar, genre_preferences := genres,
                      onboarding_completed := true } },
           [Effect.profileUpdate u.id (onboardingUpdate avatar genres)], none⟩

/-- Embedding of addToWatchlist: no-op when user is null; otherwise
append the id locally, persist the whole sequence, and adopt the
locally computed sequence after a successful write. -/
def addToWatchlist (s : AuthState) (movieId : Nat)
    (remote : WriteOutcome) : OpResult :=
  match s.user with
  | none => ⟨s, [], none⟩
  | some u =>
      match remote with
      | .err m =>
          ⟨s, [Effect.profileUpdate u.id (watchlistUpdate (u.watchlist ++ [movieId]))], some m⟩
      | .ok _ =>
          ⟨{ s with user := some { u with watchlist := u.watchlist ++ [movieId] } },
           [Effect.profileUpdate u.id (watchlistUpdate (u.watchlist ++ [movieId]))], none⟩

/-- Embedding of removeFromWatchlist: no-op when user is null;
otherwise filter out every element equal to the id, persist, and adopt
the filtered sequence after a successful write. -/
def removeFromWatchlist (s : AuthState) (movieId : Nat)
    (remote : WriteOutcome) : OpResult :=
  match s.user with
  | none => ⟨s, [], none⟩
  | some u =>
      match remote with
      | .err m =>
          ⟨s, [Effect.profileUpdate u.id
                 (watchlistUpdate (u.watchlist.filter (fun id => id != movieId)))], some m⟩
      | .ok _ =>
          ⟨{ s with user := some {
               u with watchlist := u.watchlist.filter (fun id => id != movieId) } },
           [Effect.profileUpdate u.id
              (watchlistUpdate (u.watchlist.filter (fun id => id != movieId)))], none⟩

/-- Embedding of isInWatchlist: membership in the current user
watchlist, false when user is null. -/
def isInWatchlist (s : AuthState) (movieId : Nat) : Bool :=
  match s.user with
  | none => false
  | some u => u.watchlist.contains movieId

/-- A genre entry of the metadata response. -/
structure Genre where
  id : Nat
  name : String
deriving Repr, DecidableEq

/-- A cast entry of the metadata credits. -/
structure CastMember where
  id : Nat
  name : String
  character : String
  profile_path : Option String
deriving Repr, DecidableEq

/-- The credits block of the metadata response. -/
structure Credits where
  cast : List CastMember
deriving Repr, DecidableEq

/-- Modelled from the spec: the Content shape returned by the Metadata
Client (the services/tmdb module itself is not among the provided
sources; this is the §3 Content projection, restricted to the fields
DetailPage consumes). vote_average abstracts the numeric rating; its
floating-point display is not part of any claim. -/
structure Movie where
  id : Nat
  title : Option String
  name : Option String
  overview : String
  backdrop_path : Option String
  vote_average : Int
  release_date : Option String
  first_air_date : Option String
  runtime : Option Nat
  number_of_seasons : Option Nat
  genres : Option (List Genre)
  credits : Option Credits
deriving Repr, DecidableEq

/-- Local state of the DetailPage component. -/
structure ViewState where
  content : Option Movie
  loading : Bool
  isPlaying : Bool
deriving Repr, DecidableEq

/-- DetailPage state at mount: content null, loading true. -/
def initialViewState : ViewState := ⟨none, true, false⟩

/-- A transient user notification. -/
structure Toast where
  title : String
  description : String
deriving Repr, DecidableEq

/-- The destructive toast fetchContent shows when the metadata fetch
rejects. -/
def fetchErrorToast : Toast :=
  ⟨"Error", "Failed to load content details."⟩

/-- The destructive toast shown when a gated action is attempted
without a signed-in user (or, for the watchlist toggle, without
content). -/
def signInRequiredWatchlistToast : Toast :=
  ⟨"Sign in required", "Please sign in to add items to your watchlist."⟩

/-- Outcome of a metadata fetch, as delivered by the Metadata Client. -/
inductive FetchResult where
  | ok (data : Movie)
  | err (msg : String)
deriving Repr, DecidableEq

/-- Embedding of DetailPage.fetchContent: with no id it only clears
the loading flag; otherwise it sets loading, awaits the fetch, stores
the data on success or toasts on rejection, and finally clears
loading. Returns the state after the operation completes together
with the toasts it emitted. -/
def fetchContent (v : ViewState) (id : Option String)
    (result : FetchResult) : ViewState × List Toast :=
  match id with
  | none => ({ v with loading := false }, [])
  | some _ =>
      match result with
      | .ok data => ({ v with content := some data, loading := false }, [])
      | .err _ => ({ v with loading := false }, [fetchErrorToast])

/-- Reading a run of decimal digit characters as a number. -/
def digitsToNat (cs : List Char) : Nat :=
  cs.foldl (fun acc c => acc * 10 + (c.toNat - 48)) 0

/-- Model of new Date(s).getFullYear() on a YYYY-MM-DD date string:
the leading run before the first dash, read as a number. -/
def parseYear (s : String) : Nat :=
  digitsToNat (s.data.takeWhile (fun c => c != '-'))

/-- The display-only fields DetailPage derives from the fetched
content. A field rendered under a JS truthiness guard is an Option:
none when the guard suppresses it. -/
structure DetailRender where
  title : String
  year : Option Nat
  runtime : Option (Nat × Nat)
  seasons : Option String
  backdropUrl : String
deriving Repr, DecidableEq

/-- Embedding of the derived display fields of DetailPage: title
falls through title, name, then the literal fallback; the year block
renders only when the release-date chain is non-empty; the runtime
block renders only when runtime is present and non-zero (0 is falsy),
as floor(runtime/60) hours and runtime mod 60 minutes; the seasons
block renders only for a non-zero season count, with pluralization;
the backdrop URL falls back to a placeholder. -/
def renderDetail (content : Movie) : DetailRender :=
  let title := jsOrStr content.title (jsOrStr content.name "Unknown Title")
  let releaseDate := jsOrStr content.release_date (jsOrStr content.first_air_date "")
  { title := title,
    year := if releaseDate = "" then none else some (parseYear releaseDate),
    runtime :=
      match content.runtime with
      | none => none
      | some r => if r = 0 then none else some (r / 60, r % 60),
    seasons :=
      match content.number_of_seasons with
      | none => none
      | some k =>
          if k = 0 then none
          else some (toString k ++ " Season" ++ (if 1 < k then "s" else "")),
    backdropUrl :=
      match content.backdrop_path with
      | none => "https://images.unsplash.com/photo-1489599904276-39c2bb2d7b64?w=1920&h=1080&fit=crop"
      | some p =>
          if p = "" then "https://images.unsplash.com/photo-1489599904276-39c2bb2d7b64?w=1920&h=1080&fit=crop"
          else "https://image.tmdb.org/t/p/original" ++ p }

/-- The three top-level render paths of DetailPage: the loading
screen, the not-found screen (whose Go Home button navigates to the
home route carried here), and the detail screen. -/
inductive RenderPath where
  | loadingScreen
  | notFound (goHomeTarget : String)
  | detail (fields : DetailRender)
deriving Repr, DecidableEq

/-- Embedding of the DetailPage early returns: loading wins, then a
null content renders not-found, else the detail screen. -/
def renderPage (v : ViewState) : RenderPath :=
  if v.loading then .loadingScreen
  else
    match v.content with
    | none => .notFound "/"
    | some c => .detail (renderDetail c)

/-- A watchlist mutation requested by the detail view. -/
inductive WatchlistMutation where
  | add (movieId : Nat)
  | remove (movieId : Nat)
deriving Repr, DecidableEq

/-- Result of the watchlist toggle handler: the mutation it fires at
the Session Store, if any, and the toast it shows. -/
structure ToggleResult where
  mutation : Option WatchlistMutation
  toast : Toast
deriving Repr, DecidableEq

/-- Embedding of DetailPage.handleWatchlistToggle: a null user or null
content short-circuits to the sign-in-required toast with no
mutation; otherwise membership is read via isInWatchlist and the
matching mutation is fired with a confirmation toast naming the
title. -/
def handleWatchlistToggle (s : AuthState) (content : Option Movie) : ToggleResult :=
  match s.user, content with
  | some _, some c =>
      let title := jsOrStr c.title (jsOrStr c.name "Unknown Title")
      if isInWatchlist s c.id then
        ⟨some (.remove c.id),
         ⟨"Removed from watchlist", title ++ " has been removed from your watchlist."⟩⟩
      else
        ⟨some (.add c.id),
         ⟨"Added to watchlist", title ++ " has been added to your watchlist."⟩⟩
  | _, _ => ⟨none, signInRequiredWatchlistToast⟩

/-- Embedding of SignupForm.handleSubmit: a confirmation mismatch or a
password shorter than 6 stops the submission; otherwise signup is
invoked with the email, password and username. Returns the arguments
signup is invoked with, or none when the submission is blocked. -/
def signupHandleSubmit (username email password confirmPassword : String) :
    Option (String × String × String) :=
  if password ≠ confirmPassword then none
  else if password.length < 6 then none
  else some (email, password, username)

/-- One call of a watchlist mutation sequence. -/
inductive WatchlistCall where
  | add (movieId : Nat)
  | remove (movieId : Nat)
deriving Repr, DecidableEq

/-- Dispatch of one watchlist call to the Session Store operation. -/
def applyWatchlistCall (s : AuthState) (c : WatchlistCall)
    (remote : WriteOutcome) : OpResult :=
  match c with
  | .add m => addToWatchlist s m remote
  | .remove m => removeFromWatchlist s m remote

/-- Running a sequence of watchlist calls whose remote writes all
succeed; each call is paired with the (arbitrary) response body the
remote write returned. -/
def runWatchlistCalls (s : AuthState) :
    List (WatchlistCall × Option ProfileRow) → AuthState
  | [] => s
  | (c, resp) :: rest =>
      runWatchlistCalls (applyWatchlistCall s c (.ok resp)).state rest

/-- The specification-level step: add appends, remove filters out by
equality. -/
def watchlistStep (wl : List Nat) : WatchlistCall → List Nat
  | .add m => wl ++ [m]
  | .remove m => wl.filter (fun id => id != m)

/-- Folding the calls in order over an initial watchlist. -/
def watchlistFold (wl : List Nat) (calls : List WatchlistCall) : List Nat :=
  calls.foldl watchlistStep wl

/-- A concrete provider user principal used in concrete runs. -/
def demoAuthUser : AuthUser := ⟨"user-1", some "ada@example.com"⟩

/-- A concrete provider session for demoAuthUser. -/
def demoSession : Session := ⟨demoAuthUser⟩

/-- A concrete profiles-table row for demoAuthUser, whose watchlist
already holds content id 5. -/
def demoProfileRow : ProfileRow :=
  ⟨"user-1", "ada", some "A", some [1, 2], some true, some [5]⟩

/-- The state after the provider delivers SIGNED_IN with demoSession
to the fresh store and the deferred profile load succeeds with
demoProfileRow: a fully authenticated state. -/
def demoAuthedState : AuthState :=
  runAuthTask (onAuthStateChange initialAuthState "SIGNED_IN" (some demoSession)).state
    (AuthTask.loadProfile demoAuthUser) (Except.ok demoProfileRow)

/-- The state after the provider then delivers a TOKEN_REFRESHED event
carrying a null session to demoAuthedState: the handler adopts the
null session but leaves the loaded user in place, so Session is null
while Identity is not. -/
def demoNullSessionState : AuthState :=
  (onAuthStateChange demoAuthedState "TOKEN_REFRESHED" none).state

/-- The Identity demoAuthedState holds, spelled out. -/
def demoUserProfile : UserProfile :=
  ⟨"user-1", "ada", "ada@example.com", "A", [1, 2], true, [5]⟩

/-- An Identity whose watchlist holds a duplicated id. -/
def demoDupUser : UserProfile :=
  ⟨"user-1", "ada", "ada@example.com", "A", [1, 2], true, [5, 5, 7]⟩

/-- An authenticated state whose watchlist holds id 5 twice. -/
def demoDupState : AuthState := ⟨some demoDupUser, some demoSession, false⟩

/-- A concrete movie-details response for id 550. -/
def m550 : Movie :=
  ⟨550, some "Fight Club", none,
   "An insomniac office worker and a soap maker form an underground club.",
   some "/hZkgoQYus5vegHoetLkCJzb17zJ.jpg", 8, some "1999-10-15", none,
   some 139, none, some [⟨18, "Drama"⟩], none⟩

/-- The same response with a zero runtime, as the metadata API
delivers for titles whose runtime is unknown. -/
def m550zero : Movie := { m550 with runtime := some 0 }

/-- C2 counterexample: in the reachable state demoNullSessionState the
Session is null yet the Identity is loaded, and addToWatchlist there
is not a no-op: it changes the local state and issues a remote write. -/
theorem mutation_gate_counterexample :
    demoNullSessionState.session = none ∧
    (addToWatchlist demoNullSessionState 7 (WriteOutcome.ok none)).state ≠ demoNullSessionState ∧
    (addToWatchlist demoNullSessionState 7 (WriteOutcome.ok none)).effects ≠ [] := by
  refine ⟨rfl, ?_, ?_⟩ <;> decide

/-- C2 (amended): every call to updateProfile, completeOnboarding,
addToWatchlist or removeFromWatchlist made while the local Identity
(the user field) is null is a no-op: the state is unchanged, no
effect is issued, nothing is thrown. The gate is the Identity, not
the Session. -/
theorem mutations_noop_when_identity_null (s : AuthState) (h : s.user = none) :
    (∀ upd r, updateProfile s upd r = ⟨s, [], none⟩) ∧
    (∀ a g r, completeOnboarding s a g r = ⟨s, [], none⟩) ∧
    (∀ m r, addToWatchlist s m r = ⟨s, [], none⟩) ∧
    (∀ m r, removeFromWatchlist s m r = ⟨s, [], none⟩) := by
  refine ⟨fun upd r => ?_, fun a g r => ?_, fun m r => ?_, fun m r => ?_⟩ <;>
    simp [updateProfile, completeOnboarding, addToWatchlist, removeFromWatchlist, h]

/-- Witness for the amended C2 at the fresh store state. -/
theorem mutations_noop_witness :
    addToWatchlist initialAuthState 5 (WriteOutcome.ok none) = ⟨initialAuthState, [], none⟩ :=
  (mutations_noop_when_identity_null initialAuthState rfl).2.2.1 5 (WriteOutcome.ok none)

/-- C3: a successful provider sign-out leaves Identity and Session
null and issues the navigation to the auth route; a failed sign-out
re-throws the error, leaves the state exactly as it was, and issues
no navigation. -/
theorem logout_spec (s : AuthState) :
    logout s (Except.ok ()) =
      ⟨{ s with user := none, session := none },
       [Effect.authSignOutGlobal, Effect.navigate "/auth"], none⟩ ∧
    ∀ m, logout s (Except.error m) = ⟨s, [Effect.authSignOutGlobal], some m⟩ :=
  ⟨rfl, fun _ => rfl⟩

/-- C4 counterexample: in the reachable state demoNullSessionState the
Session is null, yet isInWatchlist 5 returns true. -/
theorem isInWatchlist_null_session_counterexample :
    demoNullSessionState.session = none ∧
    isInWatchlist demoNullSessionState 5 = true :=
  ⟨rfl, by decide⟩

/-- C4 (amended): isInWatchlist returns false whenever the local
Identity (the user field) is null; with an Identity loaded it is a
pure membership query over its watchlist. The gate is the Identity,
not the Session. -/
theorem isInWatchlist_spec (s : AuthState) :
    (s.user = none → ∀ m, isInWatchlist s m = false) ∧
    ∀ u, s.user = some u → ∀ m, (isInWatchlist s m = true ↔ m ∈ u.watchlist) := by
  constructor
  · intro h m
    simp [isInWatchlist, h]
  · intro u h m
    simp [isInWatchlist, h, List.contains, List.elem_iff]

/-- Witness for the amended C4 at a state with a loaded Identity. -/
theorem isInWatchlist_spec_witness :
    isInWatchlist demoNullSessionState 5 = true ↔ 5 ∈ demoUserProfile.watchlist :=
  (isInWatchlist_spec demoNullSessionState).2 demoUserProfile rfl 5

/-- C1: while an Identity is loaded, running any sequence of
addToWatchlist and removeFromWatchlist calls whose remote writes
succeed leaves as final local watchlist exactly the fold of the
calls, in order, over the initial watchlist (add appends, remove
filters out every equal element); the response bodies paired with the
calls never influence the adopted sequence, which depends on the
calls alone. -/
theorem watchlist_calls_fold (s : AuthState) (u : UserProfile)
    (calls : List (WatchlistCall × Option ProfileRow)) (h : s.user = some u) :
    (runWatchlistCalls s calls).user =
      some { u with watchlist := watchlistFold u.watchlist (calls.map Prod.fst) } := by
  induction calls generalizing s u with
  | nil =>
      simpa [runWatchlistCalls, watchlistFold] using h
  | cons p rest ih =>
      obtain ⟨c, resp⟩ := p
      have h' : (applyWatchlistCall s c (WriteOutcome.ok resp)).state.user =
          some { u with watchlist := watchlistStep u.watchlist c } := by
        cases c <;>
          simp [applyWatchlistCall, addToWatchlist, removeFromWatchlist, h, watchlistStep]
      have hrec := ih _ _ h'
      simpa [runWatchlistCalls, watchlistFold] using hrec

/-- Witness for C1 on a concrete run: add 7, add 5 (with a nonempty
response body), remove 5, starting from a watchlist holding 5. -/
theorem watchlist_calls_fold_witness :
    (runWatchlistCalls demoAuthedState
        [(WatchlistCall.add 7, none), (WatchlistCall.add 5, some demoProfileRow),
         (WatchlistCall.remove 5, none)]).user =
      some { demoUserProfile with watchlist := [7] } :=
  (watchlist_calls_fold demoAuthedState demoUserProfile
      [(WatchlistCall.add 7, none), (WatchlistCall.add 5, some demoProfileRow),
       (WatchlistCall.remove 5, none)] rfl).trans (by decide)

/-- C5: the signup form invokes signup exactly when the password
matches its confirmation and is at least 6 long; in particular the
matching 5-character password and the mismatched pair both block the
submission. -/
theorem signup_validation (username email password confirmPassword : String) :
    ((signupHandleSubmit username email password confirmPassword).isSome ↔
      password = confirmPassword ∧ 6 ≤ password.length) ∧
    signupHandleSubmit username email "abc12" "abc12" = none ∧
    signupHandleSubmit username email "abcdef" "xyzxyz" = none := by
  refine ⟨?_, rfl, rfl⟩
  by_cases h1 : password = confirmPassword
  · by_cases h2 : password.length < 6 <;> simp [signupHandleSubmit, h1, h2]
  · simp [signupHandleSubmit, h1]

/-- Witness for C5 on a valid submission. -/
theorem signup_validation_witness :
    (signupHandleSubmit "ada" "ada@example.com" "abcdef" "abcdef").isSome :=
  (signup_validation "ada" "ada@example.com" "abcdef" "abcdef").1.mpr ⟨rfl, by decide⟩

/-- C6 counterexample: for the fetched movie with runtime 0 the
runtime block is not rendered at all (0 is falsy under the render
guard), instead of rendering as 0h 0m. -/
theorem runtime_zero_not_rendered :
    m550zero.runtime = some 0 ∧
    (renderDetail m550zero).runtime ≠ some (0 / 60, 0 % 60) :=
  ⟨rfl, by decide⟩

/-- C6 (amended): after a successful movie fetch whose title and
release_date are nonempty, the rendered title equals the fetched
title field, the rendered year equals the year parsed from
release_date, and for every positive runtime the runtime renders as
runtime/60 hours and runtime mod 60 minutes; a zero or absent runtime
renders no runtime block. -/
theorem detail_render_fields (c : Movie) (t d : String)
    (ht : c.title = some t) (htne : t ≠ "")
    (hd : c.release_date = some d) (hdne : d ≠ "") :
    (renderDetail c).title = t ∧
    (renderDetail c).year = some (parseYear d) ∧
    ∀ r, c.runtime = some r → 0 < r →
      (renderDetail c).runtime = some (r / 60, r % 60) := by
  refine ⟨?_, ?_, ?_⟩
  · simp [renderDetail, jsOrStr, ht, htne]
  · simp [renderDetail, jsOrStr, ht, htne, hd, hdne]
  · intro r hr hrpos
    simp [renderDetail, hr, Nat.pos_iff_ne_zero.mp hrpos]

/-- Witness for the amended C6 on the concrete id-550 response. -/
theorem detail_render_fields_witness :
    (renderDetail m550).title = "Fight Club" ∧
    (renderDetail m550).year = some 1999 ∧
    (renderDetail m550).runtime = some (2, 19) := by
  have h := detail_render_fields m550 "Fight Club" "1999-10-15" rfl (by decide) rfl (by decide)
  exact ⟨h.1, by rw [h.2.1]; decide, h.2.2 139 rfl (by decide)⟩

/-- C7: when a detail-page visit starts from null content and the
metadata fetch rejects, the completed operation leaves loading false
and content null, emits the error toast, and the page renders the
not-found path whose Go Home button targets the home route. -/
theorem fetch_reject_not_found (v : ViewState) (idStr msg : String)
    (h : v.content = none) :
    (fetchContent v (some idStr) (FetchResult.err msg)).1.loading = false ∧
    (fetchContent v (some idStr) (FetchResult.err msg)).1.content = none ∧
    renderPage (fetchContent v (some idStr) (FetchResult.err msg)).1 =
      RenderPath.notFound "/" ∧
    fetchErrorToast ∈ (fetchContent v (some idStr) (FetchResult.err msg)).2 := by
  refine ⟨rfl, h, ?_, ?_⟩
  · simp [fetchContent, renderPage, h]
  · simp [fetchContent]

/-- Witness for C7 at the mount state of the detail page. -/
theorem fetch_reject_not_found_witness :
    renderPage (fetchContent initialViewState (some "550") (FetchResult.err "network")).1 =
      RenderPath.notFound "/" :=
  (fetch_reject_not_found initialViewState "550" "network" rfl).2.2.1

/-- C8: on a sign-in event carrying a session the auth-state-change
handler leaves the Identity untouched and only schedules the profile
load as a deferred task for the next tick; more generally no event
makes the handler populate the Identity synchronously. -/
theorem signin_identity_load_deferred (s : AuthState) (sess : Session) :
    (onAuthStateChange s "SIGNED_IN" (some sess)).state.user = s.user ∧
    (onAuthStateChange s "SIGNED_IN" (some sess)).deferred =
      [AuthTask.loadProfile sess.user] ∧
    ∀ (event : String) (session : Option Session),
      (onAuthStateChange s event session).state.user = s.user ∨
      (onAuthStateChange s event session).state.user = none := by
  refine ⟨rfl, rfl, ?_⟩
  intro event session
  unfold onAuthStateChange
  by_cases h1 : event = "SIGNED_IN"
  · cases session <;> simp [h1]
  · by_cases h2 : event = "SIGNED_OUT" <;> simp [h1, h2]

/-- C9: the watchlist toggle fires a mutation exactly when both the
Identity and the content are loaded; with null content it answers the
sign-in-required toast and fires nothing, even for a signed-in user. -/
theorem toggle_requires_content (s : AuthState) (copt : Option Movie) :
    ((handleWatchlistToggle s copt).mutation.isSome ↔ s.user.isSome ∧ copt.isSome) ∧
    (copt = none → handleWatchlistToggle s copt = ⟨none, signInRequiredWatchlistToast⟩) := by
  constructor
  · cases hu : s.user with
    | none => cases copt <;> simp [handleWatchlistToggle, hu]
    | some u =>
        cases hc : copt with
        | none => simp [handleWatchlistToggle, hu]
        | some c =>
            simp only [handleWatchlistToggle, hu]
            split <;> simp
  · intro hc
    subst hc
    cases hu : s.user <;> simp [handleWatchlistToggle, hu]

/-- Witness for C9: a signed-in user with null content gets the
sign-in-required toast and no mutation. -/
theorem toggle_requires_content_witness :
    handleWatchlistToggle demoAuthedState none = ⟨none, signInRequiredWatchlistToast⟩ :=
  (toggle_requires_content demoAuthedState none).2 rfl

/-- C10: after a removeFromWatchlist whose remote write succeeds,
isInWatchlist on the removed id is false in the new state, whatever
the response body and however many times the id occurred before. -/
theorem remove_clears_membership (s : AuthState) (u : UserProfile) (movieId : Nat)
    (resp : Option ProfileRow) (h : s.user = some u) :
    isInWatchlist (removeFromWatchlist s movieId (WriteOutcome.ok resp)).state movieId
      = false := by
  simp [removeFromWatchlist, h, isInWatchlist, List.contains, List.elem_iff, List.mem_filter]

/-- Witness for C10 at a watchlist holding id 5 twice. -/
theorem remove_clears_membership_witness :
    isInWatchlist (removeFromWatchlist demoDupState 5 (WriteOutcome.ok none)).state 5
      = false :=
  remove_clears_membership demoDupState demoDupUser 5 none rfl

end Flickpick
